import Mathlib

/-
Verification of the query-construction and validation subsystem of the
sqlcontroller repository (src/sqlcontroller/sqlvalidator.py,
src/sqlcontroller/sqlquerybuilder.py, src/sqlcontroller/sqlcontroller.py).

The Python code is shallowly embedded: Python scalar values are modelled by
PyVal, raised exceptions by PyError carried in Except, and every validator or
builder function becomes a computable Lean definition with the same name as in
the source.  Only the ASCII fragment of Python string semantics is modelled
(all identifiers, keywords and query text handled by this code are ASCII).
-/

/-- Model of the Python values handled by the validator: strings, ints, floats
(payload modelled as a rational), None, and list-like containers (list, tuple). -/
inductive PyVal where
  | str (s : String)
  | int (n : Int)
  | float (q : Rat)
  | none
  | list (l : List PyVal)

/-- Model of the exception kinds raised by the code under src/ (sqlvalidator.py
defines the InvalidSql* classes; TypeError and IndexError are Python builtins).
invalidSqlFieldError is the aggregate error kind the spec assigns to the
field-validation operation of the newer validator module that is not under src/. -/
inductive PyError where
  | typeError
  | indexError
  | invalidAlphanumericError
  | invalidSqlDataTypeError
  | invalidSqlDataConstraintError
  | invalidSqlOperatorError
  | invalidSqlOperandError
  | invalidSqlNameError
  | invalidSqlFieldError
  deriving DecidableEq, Repr

instance {ε α : Type} [DecidableEq ε] [DecidableEq α] : DecidableEq (Except ε α)
  | Except.error e, Except.error f => decidable_of_iff (e = f) (by simp)
  | Except.error _, Except.ok _ => isFalse (by simp)
  | Except.ok _, Except.error _ => isFalse (by simp)
  | Except.ok a, Except.ok b => decidable_of_iff (a = b) (by simp)

/-- Python character class [a-zA-Z0-9] (ASCII, as in the compiled regexes). -/
def isAsciiAlphanum (c : Char) : Bool :=
  c.isAlpha || c.isDigit

/-- Python regex class \s, restricted to its ASCII members (space, tab, newline,
carriage return, vertical tab, form feed).  Non-ASCII Unicode whitespace is not
modelled; no input of interest contains it. -/
def isPySpace (c : Char) : Bool :=
  c = ' ' || c = '\t' || c = '\n' || c = '\x0d' || c = '\x0b' || c = '\x0c'

/-- Semantics of re.fullmatch applied to a one-character-class-plus pattern
[cls]+ : at least one character, and every character in the class. -/
def fullmatchPlus (cls : Char → Bool) (s : String) : Bool :=
  !s.data.isEmpty && s.data.all cls

/-- Python str.upper, ASCII fragment (all whitelisted keywords are ASCII). -/
def pyUpper (s : String) : String :=
  String.mk (s.data.map Char.toUpper)

/-- Python str.join over a list of strings. -/
def pyJoinStr (sep : String) : List String → String
  | [] => ""
  | [s] => s
  | s :: rest => s ++ sep ++ pyJoinStr sep rest

/-- Python str.join over arbitrary values: raises TypeError on a non-string
element, as str.join does. -/
def pyJoin (sep : String) : List PyVal → Except PyError String
  | [] => Except.ok ""
  | [v] =>
    match v with
    | PyVal.str s => Except.ok s
    | _ => Except.error PyError.typeError
  | v :: rest =>
    match v with
    | PyVal.str s =>
      match pyJoin sep rest with
      | Except.error e => Except.error e
      | Except.ok r => Except.ok (s ++ sep ++ r)
    | _ => Except.error PyError.typeError

/-- Python iteration: a list yields its elements, a string yields its characters
as one-character strings, anything else raises TypeError (not iterable). -/
def pyIter (v : PyVal) : Except PyError (List PyVal) :=
  match v with
  | PyVal.list l => Except.ok l
  | PyVal.str s => Except.ok (s.data.map (fun c => PyVal.str (String.mk [c])))
  | _ => Except.error PyError.typeError

namespace SqliteValidator

/-- Module constant math_comparison of sqlvalidator.py. -/
def math_comparison : List String := ["=", "<>", "!=", "<", ">", "<=", ">="]

/-- Module constant logic_comparison of sqlvalidator.py. -/
def logic_comparison : List String := ["BETWEEN", "EXISTS", "IN", "LIKE"]

/-- Module constant types of sqlvalidator.py. -/
def types : List String := ["NULL", "INTEGER", "REAL", "TEXT", "BLOB"]

/-- Module constant bool_operators of sqlvalidator.py. -/
def bool_operators : List String := ["ALL", "AND", "ANY", "OR", "NOT"]

/-- Module constant constraints of sqlvalidator.py. -/
def constraints : List String := ["NOT NULL", "UNIQUE", "PRIMARY KEY"]

/-- Compiled class pattern alphanum = [a-zA-Z0-9]+ (character class part). -/
def alphanum (c : Char) : Bool := isAsciiAlphanum c

/-- Compiled class pattern alphanum_underscore = [a-zA-Z0-9_]+ (character class part). -/
def alphanum_underscore (c : Char) : Bool := isAsciiAlphanum c || c == '_'

/-- Compiled class pattern alphanum_space = [a-zA-Z0-9\s]+ (character class part). -/
def alphanum_space (c : Char) : Bool := isAsciiAlphanum c || isPySpace c

/-- Compiled class pattern alphanum_underscore_space = [a-zA-Z0-9\s_]+ (character class part). -/
def alphanum_underscore_space (c : Char) : Bool := isAsciiAlphanum c || isPySpace c || c == '_'

/-- SqliteValidator.valid_iterable: hasattr(var, "__iter__") over the modelled
value kinds (strings and list-like containers are iterable; ints, floats and
None are not). -/
def valid_iterable (var : PyVal) : Bool :=
  match var with
  | PyVal.str _ => true
  | PyVal.list _ => true
  | _ => false

/-- SqliteValidator.valid_str: isinstance(var, str). -/
def valid_str (var : PyVal) : Bool :=
  match var with
  | PyVal.str _ => true
  | _ => false

/-- SqliteValidator.valid_alphanum: select one of the four compiled patterns by
the two flags, then isinstance(name, str) and bool(re.fullmatch(pattern, name)). -/
def valid_alphanum (name : PyVal) (underscore space : Bool) : Bool :=
  let pattern :=
    if underscore && space then alphanum_underscore_space
    else if underscore then alphanum_underscore
    else if space then alphanum_space
    else alphanum
  match name with
  | PyVal.str s => fullmatchPlus pattern s
  | _ => false

/-- SqliteValidator.valid_name: valid_alphanum(field, True, False). -/
def valid_name (field : PyVal) : Bool :=
  valid_alphanum field true false

/-- SqliteValidator.valid_type: isinstance(name, str) and name.upper() in types. -/
def valid_type (name : PyVal) : Bool :=
  match name with
  | PyVal.str s => types.contains (pyUpper s)
  | _ => false

/-- SqliteValidator.valid_constraint: isinstance(name, str) and name.upper() in constraints. -/
def valid_constraint (name : PyVal) : Bool :=
  match name with
  | PyVal.str s => constraints.contains (pyUpper s)
  | _ => false

/-- Inner predicate is_valid of SqliteValidator.valid_values:
isinstance(val, str) or is_numeric(val), with the TypeError that float() raises
on a non-numeric non-string caught and turned into False.  float(int) and
float(float) always succeed; float(None) and float(list) raise TypeError. -/
def is_valid (val : PyVal) : Bool :=
  match val with
  | PyVal.str _ => true
  | PyVal.int _ => true
  | PyVal.float _ => true
  | PyVal.none => false
  | PyVal.list _ => false

/-- SqliteValidator.valid_values: all(map(is_valid, values)); propagates the
TypeError that map/all raise when values is not iterable. -/
def valid_values (values : PyVal) : Except PyError Bool :=
  match pyIter values with
  | Except.error e => Except.error e
  | Except.ok l => Except.ok (l.all is_valid)

/-- SqliteValidator.valid_comparison_operator:
comp_op.upper() in {*math_comparison, *logic_comparison}. -/
def valid_comparison_operator (comp_op : String) : Bool :=
  (math_comparison ++ logic_comparison).contains (pyUpper comp_op)

/-- SqliteValidator.valid_bool_operator: bool_op.upper() in bool_operators. -/
def valid_bool_operator (bool_op : String) : Bool :=
  bool_operators.contains (pyUpper bool_op)

/-- SqliteValidator.validate_iterable: raise TypeError unless valid_iterable. -/
def validate_iterable (var : PyVal) : Except PyError Unit :=
  if valid_iterable var then Except.ok () else Except.error PyError.typeError

/-- SqliteValidator.validate_str: raise TypeError unless valid_str. -/
def validate_str (var : PyVal) : Except PyError Unit :=
  if valid_str var then Except.ok () else Except.error PyError.typeError

/-- SqliteValidator.validate_alphanum: validate_str first, then raise
InvalidAlphanumericError unless valid_alphanum. -/
def validate_alphanum (str_ : PyVal) (underscore space : Bool) : Except PyError Unit :=
  match validate_str str_ with
  | Except.error e => Except.error e
  | Except.ok _ =>
    if valid_alphanum str_ underscore space then Except.ok ()
    else Except.error PyError.invalidAlphanumericError

/-- SqliteValidator.validate_table_name: raise InvalidSqlNameError unless valid_name. -/
def validate_table_name (name : PyVal) : Except PyError Unit :=
  if valid_name name then Except.ok () else Except.error PyError.invalidSqlNameError

/-- SqliteValidator.validate_field_name: raise InvalidSqlOperandError unless valid_name. -/
def validate_field_name (field : PyVal) : Except PyError Unit :=
  if valid_name field then Except.ok () else Except.error PyError.invalidSqlOperandError

/-- SqliteValidator.validate_type: validate_str, then raise
InvalidSqlDataTypeError unless valid_type. -/
def validate_type (name : PyVal) : Except PyError Unit :=
  match validate_str name with
  | Except.error e => Except.error e
  | Except.ok _ =>
    if valid_type name then Except.ok () else Except.error PyError.invalidSqlDataTypeError

/-- SqliteValidator.validate_constraint: validate_str, then name = name.upper(),
then raise InvalidSqlDataConstraintError unless valid_constraint(name).
The upper-casing before the check is redundant (valid_constraint upper-cases
again) but is reproduced faithfully. -/
def validate_constraint (name : PyVal) : Except PyError Unit :=
  match validate_str name with
  | Except.error e => Except.error e
  | Except.ok _ =>
    match name with
    | PyVal.str s =>
      if valid_constraint (PyVal.str (pyUpper s)) then Except.ok ()
      else Except.error PyError.invalidSqlDataConstraintError
    | _ => Except.error PyError.typeError

/-- SqliteValidator.validate_values: raise InvalidSqlOperandError unless
valid_values; the TypeError raised inside valid_values on a non-iterable
argument propagates. -/
def validate_values (values : PyVal) : Except PyError Unit :=
  match valid_values values with
  | Except.error e => Except.error e
  | Except.ok b =>
    if b then Except.ok () else Except.error PyError.invalidSqlOperandError

/-- SqliteValidator.validate_comparison_operator: raise InvalidSqlOperatorError
unless valid_comparison_operator. -/
def validate_comparison_operator (comp_op : String) : Except PyError Unit :=
  if valid_comparison_operator comp_op then Except.ok ()
  else Except.error PyError.invalidSqlOperatorError

/-- SqliteValidator.validate_bool_operator: raise InvalidSqlOperatorError
unless valid_bool_operator. -/
def validate_bool_operator (bool_op : String) : Except PyError Unit :=
  if valid_bool_operator bool_op then Except.ok ()
  else Except.error PyError.invalidSqlOperatorError

/-- SqliteValidator.validate_condition: validate_field_name(field), then
validate_comparison_operator(operator), then validate_values(values); Python
statement sequencing makes the first raised exception abort the rest. -/
def validate_condition (field : PyVal) (operator : String) (values : PyVal) :
    Except PyError Unit :=
  match validate_field_name field with
  | Except.error e => Except.error e
  | Except.ok _ =>
    match validate_comparison_operator operator with
    | Except.error e => Except.error e
    | Except.ok _ => validate_values values

end SqliteValidator

namespace SqliteQueryBuilder

/-- Loop body of parse_field in SqliteQueryBuilder.build_table_create_query:
for con in constraints: validator.validate_constraint(con). -/
def validate_constraints_loop : List PyVal → Except PyError Unit
  | [] => Except.ok ()
  | c :: cs =>
    match SqliteValidator.validate_constraint c with
    | Except.error e => Except.error e
    | Except.ok _ => validate_constraints_loop cs

/-- Inner parse_field of SqliteQueryBuilder.build_table_create_query
(sqlquerybuilder.py lines 20-29), with the validator fixed to SqliteValidator
(the only implementation): validate_iterable(specs); type_, constraints =
specs[0], specs[1:] (IndexError on an empty specs); validate_type(type_);
validate each constraint; return (col, type_, *constraints). -/
def parse_field (col : String) (specs : List PyVal) : Except PyError (List PyVal) :=
  match SqliteValidator.validate_iterable (PyVal.list specs) with
  | Except.error e => Except.error e
  | Except.ok _ =>
    match specs with
    | [] => Except.error PyError.indexError
    | type_ :: cons =>
      match SqliteValidator.validate_type type_ with
      | Except.error e => Except.error e
      | Except.ok _ =>
        match validate_constraints_loop cons with
        | Except.error e => Except.error e
        | Except.ok _ => Except.ok (PyVal.str col :: type_ :: cons)

/-- List comprehension of build_table_create_query:
[" ".join(parse_field(col, specs)) for col, specs in fields.items()],
evaluated left to right, the first raised exception aborting the rest. -/
def parse_fields_loop : List (String × List PyVal) → Except PyError (List String)
  | [] => Except.ok []
  | (col, specs) :: rest =>
    match parse_field col specs with
    | Except.error e => Except.error e
    | Except.ok parsed =>
      match pyJoin " " parsed with
      | Except.error e => Except.error e
      | Except.ok s =>
        match parse_fields_loop rest with
        | Except.error e => Except.error e
        | Except.ok ss => Except.ok (s :: ss)

/-- SqliteQueryBuilder.build_table_create_query (sqlquerybuilder.py lines
16-37).  The Python dict argument (insertion-ordered column name to specs
tuple) is modelled as an association list. -/
def build_table_create_query (fields : List (String × List PyVal)) :
    Except PyError String :=
  match parse_fields_loop fields with
  | Except.error e => Except.error e
  | Except.ok fields_strs =>
    Except.ok ("create table if not exists {table} ("
      ++ pyJoinStr ", " fields_strs ++ ");")

/-- SqliteQueryBuilder.build_insert_query (sqlquerybuilder.py lines 39-46):
the single Collection argument is named fields and supplies both the
parenthesised name list and the placeholder count.  Modelled for string
collections (','.join raises on anything else). -/
def build_insert_query (fields : List String) : String :=
  let fields_str := if fields.isEmpty then "" else "(" ++ pyJoinStr "," fields ++ ")"
  let qmarks := pyJoinStr "," (List.replicate fields.length "?")
  "insert into {table} " ++ fields_str ++ " values (" ++ qmarks ++ ");"

/-- Semantics of re.sub("^pre ", "", s, flags=re.IGNORECASE) restricted to an
anchored all-lowercase literal pattern pre: does s start with pre up to ASCII
case?  Python case-folds pattern and subject characters; for the ASCII-letter
patterns involved this is ASCII lower-casing of the subject. -/
def startsWithCI (pre s : String) : Bool :=
  (s.data.take pre.data.length).map Char.toLower == pre.data

/-- Result of re.sub("^pre", "", s, flags=re.IGNORECASE) for an anchored
literal pattern: remove one leading occurrence if present. -/
def stripPrefixCI (pre s : String) : String :=
  if startsWithCI pre s then String.mk (s.data.drop pre.data.length) else s

/-- SqliteQueryBuilder.build_query_clauses (sqlquerybuilder.py lines 48-71):
strip one optional leading "where " / "order by " prefix case-insensitively,
append the parts whose (stripped) source is truthy, join with a single space.
Python truthiness: a string is truthy iff non-empty, an int iff non-zero. -/
def build_query_clauses (where_ : String) (order : String) (limit : Int)
    (offset : Int) : String :=
  let w := stripPrefixCI "where " where_
  let o := stripPrefixCI "order by " order
  let parts : List String :=
    (if w = "" then [] else ["where " ++ w ++ ";"])
      ++ (if o = "" then [] else ["order by " ++ o ++ ";"])
      ++ (if limit = 0 then [] else ["limit " ++ toString limit ++ ";"])
      ++ (if offset = 0 then [] else ["offset " ++ toString offset ++ ";"])
  pyJoinStr " " parts

end SqliteQueryBuilder

namespace SqlController

/-- _BaseSqlController._build_add_query (sqlcontroller.py lines 108-114): the
two-argument insert builder of the controller module.  Note the output format:
no space between the table placeholder and the column list, and no trailing
semicolon. -/
def build_add_query (values : List PyVal) (columns : List String) : String :=
  let column_str := if columns.isEmpty then "" else "(" ++ pyJoinStr "," columns ++ ")"
  let qmarks := pyJoinStr "," (List.replicate values.length "?")
  "insert into {table}" ++ column_str ++ " values (" ++ qmarks ++ ")"

end SqlController

namespace Querybuilder

/-- Modelled from the spec: the two-argument
SqliteQueryBuilder.build_insert_query(values, fields=None) of the newer module
sqlcontroller/querybuilder.py is not present under src/ (only its caller
table.py and its test test_sqlquerybuilder.py are).  Spec section 4.2: if
fields is given, render "insert into {table} (<f1>,<f2>,...) values
(<?,?,...>);" with one ? placeholder per value; if omitted, render
"insert into {table} values (<?,?,...>);". -/
def build_insert_query (values : List PyVal) (fields : Option (List String)) : String :=
  let qmarks := pyJoinStr "," (List.replicate values.length "?")
  match fields with
  | some fs => "insert into {table} (" ++ pyJoinStr "," fs ++ ") values (" ++ qmarks ++ ");"
  | Option.none => "insert into {table} values (" ++ qmarks ++ ");"

end Querybuilder

namespace Sqlfield

/-- Modelled from the spec: the Field value type of the missing module
sqlcontroller/sqlfield.py (spec section 3): a column name, a SQL type and a
list of constraints.  (Namespaced: Mathlib already has a Field class.) -/
structure Field where
  name : String
  type : String
  constraints : List String

end Sqlfield

/-- Modelled from the spec: validateField of the newer validator (spec section
4.1), not present under src/ (tests reference the missing
SqliteValidity.valid_field).  It composes identifier + type + each-constraint
validation for a Field value; aggregate failure kind InvalidSqlFieldError. -/
def validateField (f : Sqlfield.Field) : Except PyError Unit :=
  if SqliteValidator.valid_name (PyVal.str f.name)
      && SqliteValidator.valid_type (PyVal.str f.type)
      && f.constraints.all (fun c => SqliteValidator.valid_constraint (PyVal.str c))
  then Except.ok ()
  else Except.error PyError.invalidSqlFieldError

/-- Number of ? characters in a string (the driver counts every ? in the query
text as a parameter placeholder). -/
def countQmarks (s : String) : Nat :=
  s.data.count '?'

theorem string_data_append (a b : String) : (a ++ b).data = a.data ++ b.data := rfl

theorem string_mk_data (s : String) : String.mk s.data = s := rfl

theorem fullmatchPlus_eq_true_iff (cls : Char → Bool) (s : String) :
    fullmatchPlus cls s = true ↔ s.data ≠ [] ∧ ∀ c ∈ s.data, cls c = true := by
  simp [fullmatchPlus, List.all_eq_true, List.isEmpty_iff]

theorem pyJoinStr_cons_of_ne (sep x : String) (l : List String) (h : l ≠ []) :
    pyJoinStr sep (x :: l) = x ++ sep ++ pyJoinStr sep l := by
  cases l with
  | nil => exact absurd rfl h
  | cons y ys => rfl

theorem pyJoin_map_str (sep : String) (l : List String) :
    pyJoin sep (l.map PyVal.str) = Except.ok (pyJoinStr sep l) := by
  induction l with
  | nil => rfl
  | cons x xs ih =>
    cases xs with
    | nil => rfl
    | cons y ys =>
      simp only [List.map_cons] at ih ⊢
      simp [pyJoin, pyJoinStr, ih]

theorem constraint_cases {u : String}
    (h : SqliteValidator.constraints.contains u = true) :
    u = "NOT NULL" ∨ u = "UNIQUE" ∨ u = "PRIMARY KEY" := by
  simpa [SqliteValidator.constraints, List.contains] using h

theorem validate_constraint_ok_of_valid {s : String}
    (h : SqliteValidator.valid_constraint (PyVal.str s) = true) :
    SqliteValidator.validate_constraint (PyVal.str s) = Except.ok () := by
  have hc : SqliteValidator.constraints.contains (pyUpper s) = true := by
    simpa [SqliteValidator.valid_constraint] using h
  rcases constraint_cases hc with h1 | h1 | h1 <;>
    simp [SqliteValidator.validate_constraint, SqliteValidator.validate_str,
      SqliteValidator.valid_str, SqliteValidator.valid_constraint, h1] <;> decide

theorem countQmarks_append (a b : String) :
    countQmarks (a ++ b) = countQmarks a + countQmarks b := by
  simp [countQmarks, string_data_append, List.count_append]

theorem countQmarks_qmarks (n : Nat) :
    countQmarks (pyJoinStr "," (List.replicate n "?")) = n := by
  induction n with
  | zero => rfl
  | succ k ih =>
    cases k with
    | zero => rfl
    | succ m =>
      rw [List.replicate_succ, pyJoinStr_cons_of_ne _ _ _ (by simp),
        countQmarks_append, countQmarks_append, ih]
      simp [countQmarks]
      omega

theorem countQmarks_pyJoinStr_zero (sep : String) (hsep : countQmarks sep = 0)
    (l : List String) (h : ∀ s ∈ l, countQmarks s = 0) :
    countQmarks (pyJoinStr sep l) = 0 := by
  induction l with
  | nil => rfl
  | cons x xs ih =>
    cases xs with
    | nil => exact h x (by simp)
    | cons y ys =>
      rw [pyJoinStr_cons_of_ne _ _ _ (by simp), countQmarks_append, countQmarks_append,
        h x (by simp), hsep, ih (fun s hs => h s (by simp [hs]))]

theorem stripPrefixCI_append (pre real w : String)
    (hlen : real.data.length = pre.data.length)
    (hmap : real.data.map Char.toLower = pre.data) :
    SqliteQueryBuilder.stripPrefixCI pre (real ++ w) = w := by
  unfold SqliteQueryBuilder.stripPrefixCI SqliteQueryBuilder.startsWithCI
  rw [string_data_append, ← hlen, List.take_left, List.drop_left, hmap]
  simp [string_mk_data]

theorem stripPrefixCI_no_prefix (pre s : String)
    (h : SqliteQueryBuilder.startsWithCI pre s = false) :
    SqliteQueryBuilder.stripPrefixCI pre s = s := by
  simp [SqliteQueryBuilder.stripPrefixCI, h]

theorem validate_constraints_loop_ok (cs : List String)
    (h : ∀ c ∈ cs, SqliteValidator.valid_constraint (PyVal.str c) = true) :
    SqliteQueryBuilder.validate_constraints_loop (cs.map PyVal.str) = Except.ok () := by
  induction cs with
  | nil => rfl
  | cons c cs ih =>
    simp only [List.map_cons, SqliteQueryBuilder.validate_constraints_loop,
      validate_constraint_ok_of_valid (h c (by simp)),
      ih (fun x hx => h x (by simp [hx]))]

theorem parse_field_ok (col t : String) (cs : List String)
    (ht : SqliteValidator.valid_type (PyVal.str t) = true)
    (hc : ∀ c ∈ cs, SqliteValidator.valid_constraint (PyVal.str c) = true) :
    SqliteQueryBuilder.parse_field col (PyVal.str t :: cs.map PyVal.str) =
      Except.ok (PyVal.str col :: PyVal.str t :: cs.map PyVal.str) := by
  simp [SqliteQueryBuilder.parse_field, SqliteValidator.validate_iterable,
    SqliteValidator.valid_iterable, SqliteValidator.validate_type,
    SqliteValidator.validate_str, SqliteValidator.valid_str, ht,
    validate_constraints_loop_ok cs hc]

theorem parse_fields_loop_ok (fs : List (String × String × List String))
    (h : ∀ x ∈ fs, SqliteValidator.valid_type (PyVal.str x.2.1) = true
      ∧ ∀ c ∈ x.2.2, SqliteValidator.valid_constraint (PyVal.str c) = true) :
    SqliteQueryBuilder.parse_fields_loop
        (fs.map (fun x => (x.1, PyVal.str x.2.1 :: x.2.2.map PyVal.str)))
      = Except.ok (fs.map (fun x => pyJoinStr " " (x.1 :: x.2.1 :: x.2.2))) := by
  induction fs with
  | nil => rfl
  | cons x xs ih =>
    have hx := h x (by simp)
    have hjoin : pyJoin " " (PyVal.str x.1 :: PyVal.str x.2.1 :: x.2.2.map PyVal.str)
        = Except.ok (pyJoinStr " " (x.1 :: x.2.1 :: x.2.2)) := by
      have := pyJoin_map_str " " (x.1 :: x.2.1 :: x.2.2)
      simpa using this
    simp only [List.map_cons, SqliteQueryBuilder.parse_fields_loop,
      parse_field_ok x.1 x.2.1 x.2.2 hx.1 hx.2, hjoin,
      ih (fun y hy => h y (by simp [hy]))]

/-- Claim C2, counterexample: the claim keys part-presence to non-emptiness of
the source value, but on the input ("where ", "", 0, 0) — whose where-argument
is non-empty — build_query_clauses strips the prefix first, finds the remainder
empty, and emits no where part at all: the result is the empty string. -/
theorem c2_counterexample :
    SqliteQueryBuilder.build_query_clauses "where " "" 0 0 = "" ∧ "where " ≠ "" := by
  decide

/-- Claim C2 (amended): for all inputs, build_query_clauses returns exactly the
parts "where <w>;", "order by <o>;", "limit <n>;", "offset <n>;" — where <w>
and <o> are the inputs with one optional leading prefix stripped
case-insensitively, each string part present iff its prefix-stripped value is
non-empty and each integer part present iff its value is non-zero — joined by
a single space in the fixed order where, order, limit, offset; in particular
build_query_clauses("", "", 0, 0) is the empty string. -/
theorem c2_build_query_clauses (w o : String) (l off : Int) :
    SqliteQueryBuilder.build_query_clauses w o l off =
      pyJoinStr " " (List.filterMap id
        [if SqliteQueryBuilder.stripPrefixCI "where " w = "" then Option.none
          else some ("where " ++ SqliteQueryBuilder.stripPrefixCI "where " w ++ ";"),
         if SqliteQueryBuilder.stripPrefixCI "order by " o = "" then Option.none
          else some ("order by " ++ SqliteQueryBuilder.stripPrefixCI "order by " o ++ ";"),
         if l = 0 then Option.none else some ("limit " ++ toString l ++ ";"),
         if off = 0 then Option.none else some ("offset " ++ toString off ++ ";")])
    ∧ SqliteQueryBuilder.build_query_clauses "" "" 0 0 = "" := by
  refine ⟨?_, rfl⟩
  unfold SqliteQueryBuilder.build_query_clauses
  by_cases h1 : SqliteQueryBuilder.stripPrefixCI "where " w = "" <;>
    by_cases h2 : SqliteQueryBuilder.stripPrefixCI "order by " o = "" <;>
      by_cases h3 : l = 0 <;> by_cases h4 : off = 0 <;>
        simp [h1, h2, h3, h4]

/-- Claim C5, counterexample: the claim requires InvalidAlphanumericError on
every name that is not a string matching the selected class, but on the
non-string name 5 validate_alphanum raises a TypeError instead (the tests
assert exactly this: pytest.raises(TypeError) on validate_alphanum(3)). -/
theorem c5_counterexample :
    SqliteValidator.validate_alphanum (PyVal.int 5) false false
        = Except.error PyError.typeError
    ∧ PyError.typeError ≠ PyError.invalidAlphanumericError := by
  decide

/-- Claim C5 (amended): validate_alphanum fails with a TypeError when name is
not a string; for a string name it succeeds iff the string fully matches the
character-class regex selected by the two flags, and fails with
InvalidAlphanumericError iff it does not. -/
theorem c5_validate_alphanum (v : PyVal) (u sp : Bool) :
    (SqliteValidator.valid_str v = false →
      SqliteValidator.validate_alphanum v u sp = Except.error PyError.typeError)
    ∧ (SqliteValidator.validate_alphanum v u sp = Except.ok () ↔
        SqliteValidator.valid_str v = true ∧ SqliteValidator.valid_alphanum v u sp = true)
    ∧ (SqliteValidator.validate_alphanum v u sp = Except.error PyError.invalidAlphanumericError ↔
        SqliteValidator.valid_str v = true ∧ SqliteValidator.valid_alphanum v u sp = false) := by
  cases v <;>
    simp [SqliteValidator.validate_alphanum, SqliteValidator.validate_str,
      SqliteValidator.valid_str]

/-- Claim C5 witness: validate_alphanum accepts the plain alphanumeric string
Hello with both flags off. -/
theorem c5_witness :
    SqliteValidator.validate_alphanum (PyVal.str "Hello") false false = Except.ok () :=
  (c5_validate_alphanum (PyVal.str "Hello") false false).2.1.mpr (by decide)

/-- Claim C6: validate_values fails with a TypeError when values is not
iterable (int, float, None), succeeds on a list iff every element is valid,
failing with InvalidSqlOperandError otherwise, and always succeeds on a string
(whose elements are one-character strings); an element is valid iff it is a
string or a numeric scalar (int or float, the values float() accepts). -/
theorem c6_validate_values (v : PyVal) :
    (SqliteValidator.validate_values v =
      match v with
      | PyVal.list l =>
        if l.all SqliteValidator.is_valid then Except.ok ()
        else Except.error PyError.invalidSqlOperandError
      | PyVal.str _ => Except.ok ()
      | _ => Except.error PyError.typeError)
    ∧ (∀ x, SqliteValidator.is_valid x = true ↔
        (∃ s, x = PyVal.str s) ∨ (∃ n, x = PyVal.int n) ∨ (∃ q, x = PyVal.float q)) := by
  constructor
  · cases v <;>
      simp [SqliteValidator.validate_values, SqliteValidator.valid_values, pyIter,
        List.all_map, Function.comp, SqliteValidator.is_valid]
  · intro x
    cases x <;> simp [SqliteValidator.is_valid]

/-- Claim C9: the empty string is rejected by every identifier check — all four
flag settings of valid_alphanum return False on "", validate_alphanum raises
InvalidAlphanumericError on "" for all four flag settings, valid_name("") is
False, and validate_table_name("") / validate_field_name("") raise
InvalidSqlNameError / InvalidSqlOperandError respectively. -/
theorem c9_empty_string_rejected :
    SqliteValidator.valid_alphanum (PyVal.str "") false false = false
    ∧ SqliteValidator.valid_alphanum (PyVal.str "") true false = false
    ∧ SqliteValidator.valid_alphanum (PyVal.str "") false true = false
    ∧ SqliteValidator.valid_alphanum (PyVal.str "") true true = false
    ∧ SqliteValidator.validate_alphanum (PyVal.str "") false false
        = Except.error PyError.invalidAlphanumericError
    ∧ SqliteValidator.validate_alphanum (PyVal.str "") true false
        = Except.error PyError.invalidAlphanumericError
    ∧ SqliteValidator.validate_alphanum (PyVal.str "") false true
        = Except.error PyError.invalidAlphanumericError
    ∧ SqliteValidator.validate_alphanum (PyVal.str "") true true
        = Except.error PyError.invalidAlphanumericError
    ∧ SqliteValidator.valid_name (PyVal.str "") = false
    ∧ SqliteValidator.validate_table_name (PyVal.str "")
        = Except.error PyError.invalidSqlNameError
    ∧ SqliteValidator.validate_field_name (PyVal.str "")
        = Except.error PyError.invalidSqlOperandError := by
  decide

/-- Claim C10: a Python string passed as the whole values argument is iterated
character by character, every character is itself a string, so valid_values
returns True and validate_values succeeds on every string; consequently
validate_condition accepts a bare scalar string in the values position whenever
the field and operator checks pass. -/
theorem c10_string_values_accepted :
    (∀ s : String, SqliteValidator.valid_values (PyVal.str s) = Except.ok true)
    ∧ (∀ s : String, SqliteValidator.validate_values (PyVal.str s) = Except.ok ())
    ∧ (∀ (s : String) (f : PyVal) (op : String),
        SqliteValidator.validate_field_name f = Except.ok () →
        SqliteValidator.validate_comparison_operator op = Except.ok () →
        SqliteValidator.validate_condition f op (PyVal.str s) = Except.ok ()) := by
  have h1 : ∀ s : String, SqliteValidator.valid_values (PyVal.str s) = Except.ok true := by
    intro s
    simp [SqliteValidator.valid_values, pyIter, List.all_map, Function.comp,
      SqliteValidator.is_valid]
  have h2 : ∀ s : String, SqliteValidator.validate_values (PyVal.str s) = Except.ok () := by
    intro s
    simp [SqliteValidator.validate_values, h1 s]
  refine ⟨h1, h2, ?_⟩
  intro s f op hf hop
  simp [SqliteValidator.validate_condition, hf, hop, h2 s]

/-- Claim C10 witness: the bare scalar string Joe is accepted in the values
position of a condition on field name with operator =. -/
theorem c10_witness :
    SqliteValidator.validate_condition (PyVal.str "name") "=" (PyVal.str "Joe")
      = Except.ok () :=
  c10_string_values_accepted.2.2 "Joe" (PyVal.str "name") "=" (by decide) (by decide)

/-- Claim C1 (spec-modelled: the two-argument build_insert_query lives in the
missing module sqlcontroller/querybuilder.py): for every value list and
optional field-name list, build_insert_query returns
"insert into {table} (<f1>,<f2>,...) values (<?,?,...>);" when fields is given
and "insert into {table} values (<?,?,...>);" when it is omitted, and in both
cases the number of ? placeholders in the output equals the number of values
(not the number of fields), provided the field names themselves contain no ?
character. -/
theorem c1_build_insert_query (values : List PyVal) (fields : List String)
    (hf : ∀ f ∈ fields, countQmarks f = 0) :
    Querybuilder.build_insert_query values (some fields)
        = "insert into {table} (" ++ pyJoinStr "," fields ++ ") values ("
          ++ pyJoinStr "," (List.replicate values.length "?") ++ ");"
    ∧ Querybuilder.build_insert_query values Option.none
        = "insert into {table} values ("
          ++ pyJoinStr "," (List.replicate values.length "?") ++ ");"
    ∧ countQmarks (Querybuilder.build_insert_query values (some fields)) = values.length
    ∧ countQmarks (Querybuilder.build_insert_query values Option.none) = values.length := by
  have hjf : countQmarks (pyJoinStr "," fields) = 0 :=
    countQmarks_pyJoinStr_zero "," (by decide) fields hf
  have e1 : countQmarks "insert into {table} (" = 0 := by decide
  have e2 : countQmarks ") values (" = 0 := by decide
  have e3 : countQmarks ");" = 0 := by decide
  have e4 : countQmarks "insert into {table} values (" = 0 := by decide
  refine ⟨rfl, rfl, ?_, ?_⟩
  · show countQmarks ("insert into {table} (" ++ pyJoinStr "," fields ++ ") values ("
      ++ pyJoinStr "," (List.replicate values.length "?") ++ ");") = values.length
    rw [countQmarks_append, countQmarks_append, countQmarks_append, countQmarks_append,
      hjf, countQmarks_qmarks, e1, e2, e3]
    omega
  · show countQmarks ("insert into {table} values ("
      ++ pyJoinStr "," (List.replicate values.length "?") ++ ");") = values.length
    rw [countQmarks_append, countQmarks_append, countQmarks_qmarks, e4, e3]
    omega

/-- Claim C1 witness: the spec's own example — values (Joe, 33) with fields
(name, age) and with fields omitted. -/
theorem c1_witness :
    Querybuilder.build_insert_query [PyVal.str "Joe", PyVal.int 33] (some ["name", "age"])
        = "insert into {table} (name,age) values (?,?);"
    ∧ Querybuilder.build_insert_query [PyVal.str "Joe", PyVal.int 33] Option.none
        = "insert into {table} values (?,?);" := by
  have h := c1_build_insert_query [PyVal.str "Joe", PyVal.int 33] ["name", "age"] (by decide)
  exact ⟨h.1.trans (by decide), h.2.1.trans (by decide)⟩

theorem valid_name_iff (s : String) :
    SqliteValidator.valid_name (PyVal.str s) = true ↔
      s.data ≠ [] ∧ ∀ c ∈ s.data, (c.isAlpha = true ∨ c.isDigit = true ∨ c = '_') := by
  simp [SqliteValidator.valid_name, SqliteValidator.valid_alphanum, fullmatchPlus,
    SqliteValidator.alphanum_underscore, isAsciiAlphanum, List.all_eq_true,
    List.isEmpty_iff, or_assoc]

/-- Claim C3 (spec-modelled: validateField / InvalidSqlFieldError live in the
newer validator module that is not under src/): validateField succeeds exactly
when the name matches [A-Za-z0-9_]+, the type is case-insensitively one of
NULL, INTEGER, REAL, TEXT, BLOB, and each constraint is case-insensitively one
of NOT NULL, UNIQUE, PRIMARY KEY; on every other combination it fails with
InvalidSqlFieldError. -/
theorem c3_validateField (f : Sqlfield.Field) :
    (validateField f = Except.ok () ↔
      ((f.name.data ≠ [] ∧ ∀ c ∈ f.name.data, (c.isAlpha = true ∨ c.isDigit = true ∨ c = '_'))
        ∧ SqliteValidator.types.contains (pyUpper f.type) = true
        ∧ ∀ c ∈ f.constraints, SqliteValidator.constraints.contains (pyUpper c) = true))
    ∧ (validateField f = Except.ok ()
        ∨ validateField f = Except.error PyError.invalidSqlFieldError) := by
  have hiff : (validateField f = Except.ok ()) ↔
      (SqliteValidator.valid_name (PyVal.str f.name)
        && SqliteValidator.valid_type (PyVal.str f.type)
        && f.constraints.all (fun c => SqliteValidator.valid_constraint (PyVal.str c))) = true := by
    unfold validateField
    split <;> simp_all
  constructor
  · rw [hiff]
    simp only [Bool.and_eq_true, List.all_eq_true]
    rw [valid_name_iff]
    constructor
    · rintro ⟨⟨hn, ht⟩, hc⟩
      exact ⟨hn, by simpa [SqliteValidator.valid_type] using ht,
        fun c hcm => by simpa [SqliteValidator.valid_constraint] using hc c hcm⟩
    · rintro ⟨hn, ht, hc⟩
      exact ⟨⟨hn, by simpa [SqliteValidator.valid_type] using ht⟩,
        fun c hcm => by simpa [SqliteValidator.valid_constraint] using hc c hcm⟩
  · unfold validateField
    split <;> simp

/-- Claim C3 witness: the Field (ID, text, [not null, unique]) from the tests
validates. -/
theorem c3_witness :
    validateField ⟨"ID", "text", ["not null", "unique"]⟩ = Except.ok () :=
  (c3_validateField ⟨"ID", "text", ["not null", "unique"]⟩).1.mpr (by decide)

/-- Claim C4: for every sequence of fields whose components all validate (a
valid type at the head of each specs tuple and valid constraints after it),
build_table_create_query validates each field, renders each as
"<name> <type> <constraint1> <constraint2> ..." preserving the caller's
original spelling, joins the renderings with ", " in input order, and wraps
the result as "create table if not exists {table} (<joined>);". -/
theorem c4_build_table_create_query (fs : List (String × String × List String))
    (h : ∀ x ∈ fs, SqliteValidator.valid_type (PyVal.str x.2.1) = true
      ∧ ∀ c ∈ x.2.2, SqliteValidator.valid_constraint (PyVal.str c) = true) :
    SqliteQueryBuilder.build_table_create_query
        (fs.map (fun x => (x.1, PyVal.str x.2.1 :: x.2.2.map PyVal.str)))
      = Except.ok ("create table if not exists {table} ("
          ++ pyJoinStr ", " (fs.map (fun x => pyJoinStr " " (x.1 :: x.2.1 :: x.2.2)))
          ++ ");") := by
  simp [SqliteQueryBuilder.build_table_create_query, parse_fields_loop_ok fs h]

/-- Claim C4 witness: the spec's own create-table example, rendered with the
callers' lower-case spelling preserved. -/
theorem c4_witness :
    SqliteQueryBuilder.build_table_create_query
        [("name", [PyVal.str "integer", PyVal.str "primary key"]),
         ("age", [PyVal.str "integer", PyVal.str "not null", PyVal.str "unique"])]
      = Except.ok
          "create table if not exists {table} (name integer primary key, age integer not null unique);" := by
  have h := c4_build_table_create_query
    [("name", "integer", ["primary key"]), ("age", "integer", ["not null", "unique"])]
    (by decide)
  exact h.trans (by decide)

/-- Claim C7: build_query_clauses strips one optional leading "where " /
"order by " prefix case-insensitively before re-adding it, so for any
condition strings that do not already carry the prefix, passing the prefixed
form (lower- or upper-case) produces exactly the output of the bare form. -/
theorem c7_prefix_idempotent (w o : String) (l off : Int)
    (hw : SqliteQueryBuilder.startsWithCI "where " w = false)
    (ho : SqliteQueryBuilder.startsWithCI "order by " o = false) :
    SqliteQueryBuilder.build_query_clauses ("where " ++ w) ("order by " ++ o) l off
        = SqliteQueryBuilder.build_query_clauses w o l off
    ∧ SqliteQueryBuilder.build_query_clauses ("WHERE " ++ w) ("ORDER BY " ++ o) l off
        = SqliteQueryBuilder.build_query_clauses w o l off := by
  unfold SqliteQueryBuilder.build_query_clauses
  rw [stripPrefixCI_append "where " "where " w (by decide) (by decide),
    stripPrefixCI_append "order by " "order by " o (by decide) (by decide),
    stripPrefixCI_append "where " "WHERE " w (by decide) (by decide),
    stripPrefixCI_append "order by " "ORDER BY " o (by decide) (by decide),
    stripPrefixCI_no_prefix "where " w hw, stripPrefixCI_no_prefix "order by " o ho]
  exact ⟨rfl, rfl⟩

/-- Claim C7 witness: the bare condition pair (age > 10, age desc) and its
prefixed form produce identical clause strings. -/
theorem c7_witness :
    SqliteQueryBuilder.startsWithCI "where " "age > 10" = false
    ∧ SqliteQueryBuilder.startsWithCI "order by " "age desc" = false
    ∧ SqliteQueryBuilder.build_query_clauses ("where " ++ "age > 10")
        ("order by " ++ "age desc") 10 3
        = SqliteQueryBuilder.build_query_clauses "age > 10" "age desc" 10 3 :=
  ⟨by decide, by decide,
    (c7_prefix_idempotent "age > 10" "age desc" 10 3 (by decide) (by decide)).1⟩

/-- Claim C8: validate_condition checks the field name, then the comparison
operator, then the values, succeeding iff all three succeed; it short-circuits,
returning the error of the first failing check with the later checks never
reached. -/
theorem c8_validate_condition (f : PyVal) (op : String) (v : PyVal) :
    (SqliteValidator.validate_condition f op v = Except.ok () ↔
      SqliteValidator.validate_field_name f = Except.ok ()
      ∧ SqliteValidator.validate_comparison_operator op = Except.ok ()
      ∧ SqliteValidator.validate_values v = Except.ok ())
    ∧ (∀ e, SqliteValidator.validate_field_name f = Except.error e →
        SqliteValidator.validate_condition f op v = Except.error e)
    ∧ (∀ e, SqliteValidator.validate_field_name f = Except.ok () →
        SqliteValidator.validate_comparison_operator op = Except.error e →
        SqliteValidator.validate_condition f op v = Except.error e)
    ∧ (∀ e, SqliteValidator.validate_field_name f = Except.ok () →
        SqliteValidator.validate_comparison_operator op = Except.ok () →
        SqliteValidator.validate_values v = Except.error e →
        SqliteValidator.validate_condition f op v = Except.error e) := by
  unfold SqliteValidator.validate_condition
  rcases hf : SqliteValidator.validate_field_name f with ef | uf
  · simp [hf]
  · cases uf
    rcases hop : SqliteValidator.validate_comparison_operator op with eop | uop
    · simp [hf, hop]
    · cases uop
      rcases hv : SqliteValidator.validate_values v with ev | uv
      · simp [hf, hop, hv]
      · cases uv
        simp [hf, hop, hv]

/-- Claim C8 witness: the condition (age, =, [1]) passes all three checks and
is accepted. -/
theorem c8_witness :
    SqliteValidator.validate_condition (PyVal.str "age") "=" (PyVal.list [PyVal.int 1])
      = Except.ok () :=
  (c8_validate_condition (PyVal.str "age") "=" (PyVal.list [PyVal.int 1])).1.mpr
    ⟨by decide, by decide, by decide⟩
